import Mathlib

/-!
# node_libdbus: the `Message` binding (`src/node_dbus_message.cpp`)

A shallow embedding of the `node_dbus::Message` class: its constructor
dispatch, the four typed constructors, the serial accessors and the
destructor, over an explicit heap of transport payloads.

* JavaScript values are the inductive type `Value`.
* A `DBusMessage *` is a natural number, `0` being `NULL`.
* The transport library (libdbus) is not part of the repository; the few
  entry points the binding calls are modelled on an explicit `Heap`.
* Functions that may throw return the exception next to the heap, so that
  "nothing changed" is a statement about the returned heap.
-/

namespace node_dbus

/-! ## JavaScript values -/

/-- The C++ object behind a JavaScript `Message`: the field `message_`. -/
structure Message where
  message_ : Nat
  deriving DecidableEq, Repr

/-- The JavaScript values the binding distinguishes. -/
inductive Value where
  | undefined
  | boolean (b : Bool)
  /-- A Number whose value is the integer `n`, other than negative zero. -/
  | number (n : Int)
  /-- The Number `-0`. -/
  | negativeZero
  /-- A Number that is not integral and lies strictly between `floor` and `floor + 1`. -/
  | fractional (floor : Int)
  | nan
  | string (s : String)
  /-- The result of `External::New(p)`. -/
  | external (p : Nat)
  /-- An instance of the `Message` function template. -/
  | message (m : Message)
  /-- Any other object. -/
  | object
  deriving DecidableEq, Repr

/-- The exceptions the binding throws. -/
inductive Exception where
  | argumentCountMismatch (actual expected : Nat)
  | typeError (msg : String)
  | error (msg : String)
  deriving DecidableEq, Repr

/-- Error taxonomy of the interface: wrong argument count or type. -/
def Exception.isInvalidArgument : Exception → Bool
  | .argumentCountMismatch _ _ => true
  | .typeError _ => true
  | .error _ => false

/-- Error taxonomy of the interface: payload allocation failed. -/
def Exception.isOutOfMemory : Exception → Bool
  | .error msg => msg == "Out of memory"
  | _ => false

/-- Modelled from the spec: V8 `Value::IsInt32` lies outside the repository;
it holds of the Numbers whose value is an integer in the signed 32-bit range,
negative zero excepted. -/
def Value.IsInt32 : Value → Bool
  | .number n => decide (-2147483648 ≤ n ∧ n ≤ 2147483647)
  | _ => false

/-- Modelled from the spec: V8 `Value::IsUint32` lies outside the repository;
it holds of the Numbers whose value is an integer in 0..4294967295
(section 4.6, "unsigned 32-bit integer values"), negative zero excepted. -/
def Value.IsUint32 : Value → Bool
  | .number n => decide (0 ≤ n ∧ n ≤ 4294967295)
  | _ => false

/-- The integer a value stands for, when it is a Number with an integral
value; negative zero is the integer 0. -/
def Value.integerValue? : Value → Option Int
  | .number n => some n
  | .negativeZero => some 0
  | _ => none

/-- V8 `Value::IsString`. -/
def Value.IsString : Value → Bool
  | .string _ => true
  | _ => false

/-- V8 `Value::IsExternal`. -/
def Value.IsExternal : Value → Bool
  | .external _ => true
  | _ => false

/-- The check `Message::HasInstance`. -/
def Message.HasInstance : Value → Bool
  | .message _ => true
  | _ => false

/-- The call `args` of a method: the receiver `args.Holder()`, which the code
unwraps as a `Message` without a check, and the argument list. -/
structure Arguments where
  Holder : Message
  argv : List Value
  deriving Repr

/-- The expression `args[i]`: `undefined` beyond the last argument. -/
def Arguments.get (args : Arguments) (i : Nat) : Value :=
  args.argv.getD i Value.undefined

/-- The expression `args.Length()`. -/
def Arguments.Length (args : Arguments) : Nat :=
  args.argv.length

/-- Modelled from the spec: `v8_utils::argumentCountMismatch` is declared
outside `src/`; it holds when the call has a number of arguments other than
the exact count (section 6, "exact counts"). -/
def v8_utils.argumentCountMismatch (args : Arguments) (expected : Nat) : Bool :=
  args.Length != expected

/-- Modelled from the spec: `v8_utils::throwArgumentCountMismatchException`
is declared outside `src/`; it raises the wrong-argument-count error of
section 7. -/
def v8_utils.throwArgumentCountMismatchException (args : Arguments) (expected : Nat) : Exception :=
  Exception.argumentCountMismatch args.Length expected

/-- Modelled from the spec: `v8_utils::throwTypeError` is declared outside
`src/`; it raises a type error carrying the message. -/
def v8_utils.throwTypeError (msg : String) : Exception :=
  Exception.typeError msg

/-- Modelled from the spec: `v8_utils::throwError` is declared outside
`src/`; it raises a plain error carrying the message. -/
def v8_utils.throwError (msg : String) : Exception :=
  Exception.error msg

/-- The terminator of a C string. -/
def NUL : Char := Char.ofNat 0

/-- The `char *` obtained by `*value` from a `String::Utf8Value` and handed to
a `const char *` parameter: the characters before the first NUL. (UTF-8 has a
zero byte only in the encoding of U+0000, so cutting characters and cutting
bytes agree.) -/
def Utf8Value.c_str (s : String) : String :=
  String.mk (s.data.takeWhile (fun c => c != NUL))

/-! ## Transport payloads -/

/-- The kinds of message of the data model. -/
inductive Kind where
  | MethodCall
  | MethodReturn
  | Error
  | Signal
  | Invalid
  deriving DecidableEq, Repr

def DBUS_MESSAGE_TYPE_INVALID : Int := 0
def DBUS_MESSAGE_TYPE_METHOD_CALL : Int := 1
def DBUS_MESSAGE_TYPE_METHOD_RETURN : Int := 2
def DBUS_MESSAGE_TYPE_ERROR : Int := 3
def DBUS_MESSAGE_TYPE_SIGNAL : Int := 4

/-- The kind a type tag stands for; every unrecognised tag is `Invalid`. -/
def kindOfType (t : Int) : Kind :=
  if t = DBUS_MESSAGE_TYPE_METHOD_CALL then Kind.MethodCall
  else if t = DBUS_MESSAGE_TYPE_METHOD_RETURN then Kind.MethodReturn
  else if t = DBUS_MESSAGE_TYPE_ERROR then Kind.Error
  else if t = DBUS_MESSAGE_TYPE_SIGNAL then Kind.Signal
  else Kind.Invalid

/-- Modelled from the spec: the payload type `DBusMessage` belongs to the
transport library; it carries the header fields of section 3, the reference
count, and a counter of the releases it has received. -/
structure DBusMessage where
  type : Int
  serial : Nat
  reply_serial : Nat
  destination : Option String
  path : Option String
  interface : Option String
  member : Option String
  error_name : Option String
  error_message : Option String
  refcount : Nat
  unrefs : Nat
  deriving DecidableEq, Repr

/-- The kind of a payload. -/
def DBusMessage.kind (c : DBusMessage) : Kind :=
  kindOfType c.type

/-- A payload as the transport library hands it out: one reference, never
released, serial and reply serial unset, no header field. -/
def DBusMessage.empty (t : Int) : DBusMessage :=
  { type := t, serial := 0, reply_serial := 0, destination := none, path := none,
    interface := none, member := none, error_name := none, error_message := none,
    refcount := 1, unrefs := 0 }

/-- A payload after its reply serial is overwritten. -/
def DBusMessage.withReplySerial (c : DBusMessage) (reply_serial : Nat) : DBusMessage :=
  { c with reply_serial := reply_serial }

/-- A payload after one release: one reference fewer, one more release counted. -/
def DBusMessage.released (c : DBusMessage) : DBusMessage :=
  { c with refcount := c.refcount - 1, unrefs := c.unrefs + 1 }

/-- The memory of the transport library. The payload at address `p > 0` is
`cells[p - 1]`; it is live while its reference count is positive.
`allocPlan` gives the outcome of the coming allocations, in order (`false`:
the allocation fails; past the end of the list every allocation succeeds),
and `newCalls` counts the calls made to the payload constructors. -/
structure Heap where
  cells : List DBusMessage
  allocPlan : List Bool
  newCalls : Nat
  deriving DecidableEq, Repr

/-- The cell at an address, live or not. -/
def Heap.cell? (h : Heap) (p : Nat) : Option DBusMessage :=
  if p = 0 then none else h.cells[p - 1]?

/-- The live payload at an address. -/
def Heap.live? (h : Heap) (p : Nat) : Option DBusMessage :=
  match h.cell? p with
  | some c => if c.refcount = 0 then none else some c
  | none => none

/-- The heap with the cell at address `p` overwritten. -/
def Heap.setCell (h : Heap) (p : Nat) (d : DBusMessage) : Heap :=
  { h with cells := h.cells.set (p - 1) d }

/-- Whether the next allocation succeeds. -/
def Heap.nextAllocSucceeds (h : Heap) : Bool :=
  match h.allocPlan with
  | false :: _ => false
  | _ => true

/-- One call of a payload constructor: it makes one allocation, which either
fails (`NULL`) or yields a fresh address holding `init`. -/
def Heap.alloc (h : Heap) (init : DBusMessage) : Heap × Nat :=
  if h.nextAllocSucceeds then
    ({ cells := h.cells ++ [init], allocPlan := h.allocPlan.tail,
       newCalls := h.newCalls + 1 }, h.cells.length + 1)
  else
    ({ cells := h.cells, allocPlan := h.allocPlan.tail,
       newCalls := h.newCalls + 1 }, 0)

/-- Modelled from the spec: libdbus `dbus_message_new` (section 4.1): an empty
payload of the given type tag. -/
def dbus_message_new (h : Heap) (message_type : Int) : Heap × Nat :=
  h.alloc (DBusMessage.empty message_type)

/-- Modelled from the spec: libdbus `dbus_message_new_method_call`
(section 4.2): a method call carrying the four C strings. -/
def dbus_message_new_method_call (h : Heap) (destination path interface method : String) :
    Heap × Nat :=
  h.alloc { DBusMessage.empty DBUS_MESSAGE_TYPE_METHOD_CALL with
    destination := some destination, path := some path,
    interface := some interface, member := some method }

/-- Modelled from the spec: libdbus `dbus_message_new_method_return`
(section 4.3): a method return whose reply serial is the serial of the payload
passed in. Without a live payload to answer the call yields `NULL`. -/
def dbus_message_new_method_return (h : Heap) (method_call : Nat) : Heap × Nat :=
  match h.live? method_call with
  | some c =>
    h.alloc { DBusMessage.empty DBUS_MESSAGE_TYPE_METHOD_RETURN with reply_serial := c.serial }
  | none => ({ h with newCalls := h.newCalls + 1 }, 0)

/-- Modelled from the spec: libdbus `dbus_message_new_error` (section 4.4): an
error whose reply serial is the serial of the payload passed in, carrying the
two C strings. Without a live payload to answer the call yields `NULL`. -/
def dbus_message_new_error (h : Heap) (reply_to : Nat) (error_name error_message : String) :
    Heap × Nat :=
  match h.live? reply_to with
  | some c =>
    h.alloc { DBusMessage.empty DBUS_MESSAGE_TYPE_ERROR with
      reply_serial := c.serial, error_name := some error_name,
      error_message := some error_message }
  | none => ({ h with newCalls := h.newCalls + 1 }, 0)

/-- Modelled from the spec: libdbus `dbus_message_new_signal` (section 4.5): a
signal carrying the three C strings. -/
def dbus_message_new_signal (h : Heap) (path interface name : String) : Heap × Nat :=
  h.alloc { DBusMessage.empty DBUS_MESSAGE_TYPE_SIGNAL with
    path := some path, interface := some interface, member := some name }

/-- Modelled from the spec: libdbus `dbus_message_get_serial` (section 4.6):
the serial, `0` when there is no live payload. -/
def dbus_message_get_serial (h : Heap) (p : Nat) : Nat :=
  match h.live? p with
  | some c => c.serial
  | none => 0

/-- Modelled from the spec: libdbus `dbus_message_get_reply_serial`
(section 4.6): the reply serial, `0` when there is no live payload. -/
def dbus_message_get_reply_serial (h : Heap) (p : Nat) : Nat :=
  match h.live? p with
  | some c => c.reply_serial
  | none => 0

/-- Modelled from the spec: libdbus `dbus_message_set_reply_serial`
(section 4.6): overwrites the reply serial of a live payload. -/
def dbus_message_set_reply_serial (h : Heap) (p : Nat) (reply_serial : Nat) : Heap :=
  match h.live? p with
  | some c => h.setCell p (c.withReplySerial reply_serial)
  | none => h

/-- Modelled from the spec: libdbus `dbus_message_unref` (section 3): one
release of the payload at an address, which drops one reference and is
counted on the payload. -/
def dbus_message_unref (h : Heap) (p : Nat) : Heap :=
  match h.cell? p with
  | some c => h.setCell p c.released
  | none => h

/-! ## The class `Message` -/

/-- The constructor `Message::Message(DBusMessage * msg)`. -/
def Message.mk_ (msg : Nat) : Message :=
  { message_ := msg }

/-- The destructor `Message::~Message()`. -/
def Message.destroy (h : Heap) (self : Message) : Heap × Message :=
  if self.message_ ≠ 0 then
    (dbus_message_unref h self.message_, { message_ := 0 })
  else
    (h, self)

/-- The constructor callback `Message::New(Arguments const& args)`; the
object returned is `args.This()` wrapping the new C++ object. `Int32Value()`
is read under `IsInt32()`, hence from a Number; the inner fallback is never
reached. -/
def Message.New (h : Heap) (args : Arguments) : Heap × Except Exception Message :=
  if v8_utils.argumentCountMismatch args 1 then
    (h, .error (v8_utils.throwArgumentCountMismatchException args 1))
  else
    match args.get 0 with
    | .external p => (h, .ok (Message.mk_ p))
    | v =>
      if v.IsInt32 then
        match v with
        | .number type =>
          let r := dbus_message_new h type
          (r.1, .ok (Message.mk_ r.2))
        | _ => (h, .error (v8_utils.throwTypeError "argument 1 must be an integer (DBusMessageType)"))
      else
        (h, .error (v8_utils.throwTypeError "argument 1 must be an integer (DBusMessageType)"))

/-- The call `Message::function()->NewInstance(1, & arg)` with
`arg = External::New(msg)`: the constructor callback run on one external
argument. The receiver of a construction is the object being built, which
`New` does not read. -/
def Message.NewInstance (h : Heap) (msg : Nat) : Heap × Except Exception Message :=
  Message.New h { Holder := Message.mk_ 0, argv := [Value.external msg] }

/-- The overload `Message::New(DBusMessage * msg)`, which wraps a payload
handed in by the transport. -/
def Message.NewWrapping (h : Heap) (msg : Nat) : Heap × Except Exception Message :=
  Message.NewInstance h msg

/-- The method `Message::CreateMethodCall`. Each `IsString()` test and the
`ToString()` after it are one pattern match on the argument. -/
def Message.CreateMethodCall (h : Heap) (args : Arguments) : Heap × Except Exception Message :=
  if v8_utils.argumentCountMismatch args 4 then
    (h, .error (v8_utils.throwArgumentCountMismatchException args 4))
  else
    match args.get 0 with
    | .string destination =>
      match args.get 1 with
      | .string path =>
        match args.get 2 with
        | .string interface =>
          match args.get 3 with
          | .string method =>
            let r := dbus_message_new_method_call h (Utf8Value.c_str destination)
              (Utf8Value.c_str path) (Utf8Value.c_str interface) (Utf8Value.c_str method)
            if r.2 = 0 then
              (r.1, .error (v8_utils.throwError "Out of memory"))
            else
              Message.NewInstance r.1 r.2
          | _ => (h, .error (v8_utils.throwTypeError "argument 4 must be a string (method)"))
        | _ => (h, .error (v8_utils.throwTypeError "argument 3 must be a string (interface)"))
      | _ => (h, .error (v8_utils.throwTypeError "argument 2 must be a string (path)"))
    | _ => (h, .error (v8_utils.throwTypeError "argument 1 must be a string (destination)"))

/-- The method `Message::CreateMethodReturn`. The payload answered is the one
of `unwrap(args.Holder())`. -/
def Message.CreateMethodReturn (h : Heap) (args : Arguments) :
    Heap × Except Exception Message :=
  if v8_utils.argumentCountMismatch args 1 then
    (h, .error (v8_utils.throwArgumentCountMismatchException args 1))
  else if !Message.HasInstance (args.get 0) then
    (h, .error (v8_utils.throwTypeError "argument 1 must be an object (Message)"))
  else
    let method_call_message := args.Holder
    let r := dbus_message_new_method_return h method_call_message.message_
    if r.2 = 0 then
      (r.1, .error (v8_utils.throwError "Out of memory"))
    else
      Message.NewInstance r.1 r.2

/-- The method `Message::CreateErrorMessage`. The payload answered is the one
of `unwrap(args.Holder())`. -/
def Message.CreateErrorMessage (h : Heap) (args : Arguments) :
    Heap × Except Exception Message :=
  if v8_utils.argumentCountMismatch args 3 then
    (h, .error (v8_utils.throwArgumentCountMismatchException args 3))
  else if !Message.HasInstance (args.get 0) then
    (h, .error (v8_utils.throwTypeError "argument 1 must be an object (Message)"))
  else
    let reply_msg := args.Holder
    match args.get 1 with
    | .string error_name =>
      match args.get 2 with
      | .string error_message =>
        let r := dbus_message_new_error h reply_msg.message_
          (Utf8Value.c_str error_name) (Utf8Value.c_str error_message)
        if r.2 = 0 then
          (r.1, .error (v8_utils.throwError "Out of memory"))
        else
          Message.NewInstance r.1 r.2
      | _ => (h, .error (v8_utils.throwTypeError "argument 3 must be a string (error_message)"))
    | _ => (h, .error (v8_utils.throwTypeError "argument 2 must be a string (error_name)"))

/-- The method `Message::CreateSignal`. -/
def Message.CreateSignal (h : Heap) (args : Arguments) : Heap × Except Exception Message :=
  if v8_utils.argumentCountMismatch args 3 then
    (h, .error (v8_utils.throwArgumentCountMismatchException args 3))
  else
    match args.get 0 with
    | .string path =>
      match args.get 1 with
      | .string interface =>
        match args.get 2 with
        | .string name =>
          let r := dbus_message_new_signal h (Utf8Value.c_str path)
            (Utf8Value.c_str interface) (Utf8Value.c_str name)
          if r.2 = 0 then
            (r.1, .error (v8_utils.throwError "Out of memory"))
          else
            Message.NewInstance r.1 r.2
        | _ => (h, .error (v8_utils.throwTypeError "argument 3 must be a string (name)"))
      | _ => (h, .error (v8_utils.throwTypeError "argument 2 must be a string (interface)"))
    | _ => (h, .error (v8_utils.throwTypeError "argument 1 must be a string (path)"))

/-- The getter `Message::GetSerial` of the property `serial`. -/
def Message.GetSerial (h : Heap) (holder : Message) : Value :=
  Value.number (dbus_message_get_serial h holder.message_)

/-- The getter `Message::GetReplySerial` of the property `replySerial`. -/
def Message.GetReplySerial (h : Heap) (holder : Message) : Value :=
  Value.number (dbus_message_get_reply_serial h holder.message_)

/-- The setter `Message::SetReplySerial` of the property `replySerial`; it
returns the heap and the exception thrown, if any. `Uint32Value()` is read
under `IsUint32()`, hence from a non-negative Number; the inner fallback is
never reached. -/
def Message.SetReplySerial (h : Heap) (holder : Message) (value : Value) :
    Heap × Option Exception :=
  if !value.IsUint32 then
    (h, some (v8_utils.throwTypeError "reply serial must be an unsigned integer"))
  else
    match value with
    | .number n => (dbus_message_set_reply_serial h holder.message_ n.toNat, none)
    | _ => (h, some (v8_utils.throwTypeError "reply serial must be an unsigned integer"))


deriving instance DecidableEq for Except

/-! ## Well-typed calls and concrete heaps used in the statements -/

/-- The call `createMethodCall(d, p, i, m)` on some receiver. -/
def methodCallArgs (holder : Message) (d p i m : String) : Arguments :=
  { Holder := holder,
    argv := [Value.string d, Value.string p, Value.string i, Value.string m] }

/-- The call `createMethodReturn(src)` on the receiver `holder`. -/
def methodReturnArgs (holder src : Message) : Arguments :=
  { Holder := holder, argv := [Value.message src] }

/-- The call `createErrorMessage(src, n, e)` on the receiver `holder`. -/
def errorMessageArgs (holder src : Message) (n e : String) : Arguments :=
  { Holder := holder, argv := [Value.message src, Value.string n, Value.string e] }

/-- The call `createSignal(p, i, n)` on some receiver. -/
def signalArgs (holder : Message) (p i n : String) : Arguments :=
  { Holder := holder, argv := [Value.string p, Value.string i, Value.string n] }

/-- The empty heap on which every allocation succeeds. -/
def emptyHeap : Heap := { cells := [], allocPlan := [], newCalls := 0 }

/-- The empty heap on which the next allocation fails. -/
def exhaustedHeap : Heap := { cells := [], allocPlan := [false], newCalls := 0 }

/-- A method call received from the transport with the given serial. -/
def received (serial : Nat) : DBusMessage :=
  { DBusMessage.empty DBUS_MESSAGE_TYPE_METHOD_CALL with serial := serial }

/-- A heap holding two received calls: serial 5 at address 1, serial 7 at address 2. -/
def twoReceived : Heap :=
  { cells := [received 5, received 7], allocPlan := [], newCalls := 0 }

/-! ## Facts about the heap -/

theorem Heap.live?_eq_some {h : Heap} {p : Nat} {c : DBusMessage} :
    h.live? p = some c ↔ p ≠ 0 ∧ h.cells[p - 1]? = some c ∧ c.refcount ≠ 0 := by
  unfold Heap.live? Heap.cell?
  by_cases hp : p = 0
  · simp [hp]
  · simp only [hp, if_false]
    cases hc : h.cells[p - 1]? with
    | none => simp
    | some d =>
      by_cases hr : d.refcount = 0
      · simp only [hr, if_true]
        constructor
        · intro hx; cases hx
        · rintro ⟨-, hd, hne⟩
          cases hd
          exact absurd hr hne
      · simp only [hr, if_false]
        constructor
        · intro hx; cases hx; exact ⟨hp, rfl, hr⟩
        · rintro ⟨-, hd, -⟩
          cases hd; rfl

theorem Heap.cell?_of_live {h : Heap} {p : Nat} {c : DBusMessage}
    (hl : h.live? p = some c) : h.cell? p = some c := by
  obtain ⟨hp, hc, -⟩ := Heap.live?_eq_some.mp hl
  simp [Heap.cell?, hp, hc]

theorem Heap.lt_of_live {h : Heap} {p : Nat} {c : DBusMessage}
    (hl : h.live? p = some c) : p - 1 < h.cells.length := by
  obtain ⟨-, hc, -⟩ := Heap.live?_eq_some.mp hl
  by_contra hlt
  rw [List.getElem?_eq_none (Nat.le_of_not_lt hlt)] at hc
  cases hc

theorem Heap.live?_zero (h : Heap) : h.live? 0 = none := by
  simp [Heap.live?, Heap.cell?]

theorem Heap.alloc_of_succeeds {h : Heap} (init : DBusMessage)
    (hs : h.nextAllocSucceeds = true) :
    h.alloc init =
      ({ cells := h.cells ++ [init], allocPlan := h.allocPlan.tail,
         newCalls := h.newCalls + 1 }, h.cells.length + 1) := by
  simp [Heap.alloc, hs]

theorem Heap.alloc_of_fails {h : Heap} (init : DBusMessage)
    (hs : h.nextAllocSucceeds = false) :
    h.alloc init =
      ({ cells := h.cells, allocPlan := h.allocPlan.tail,
         newCalls := h.newCalls + 1 }, 0) := by
  simp [Heap.alloc, hs]

theorem Heap.alloc_newCalls (h : Heap) (init : DBusMessage) :
    (h.alloc init).1.newCalls = h.newCalls + 1 := by
  cases hs : h.nextAllocSucceeds
  · rw [Heap.alloc_of_fails init hs]
  · rw [Heap.alloc_of_succeeds init hs]

theorem Heap.alloc_allocPlan (h : Heap) (init : DBusMessage) :
    (h.alloc init).1.allocPlan = h.allocPlan.tail := by
  cases hs : h.nextAllocSucceeds
  · rw [Heap.alloc_of_fails init hs]
  · rw [Heap.alloc_of_succeeds init hs]

theorem Heap.alloc_eq_zero_iff (h : Heap) (init : DBusMessage) :
    (h.alloc init).2 = 0 ↔ h.nextAllocSucceeds = false := by
  cases hs : h.nextAllocSucceeds
  · rw [Heap.alloc_of_fails init hs]; simp
  · rw [Heap.alloc_of_succeeds init hs]; simp

theorem Heap.alloc_fresh (h : Heap) (init : DBusMessage) :
    h.cell? (h.alloc init).2 = none := by
  cases hs : h.nextAllocSucceeds
  · rw [Heap.alloc_of_fails init hs]; simp [Heap.cell?]
  · rw [Heap.alloc_of_succeeds init hs]; simp [Heap.cell?]

theorem Heap.alloc_live {h : Heap} {init : DBusMessage}
    (hne : (h.alloc init).2 ≠ 0) (hr : init.refcount ≠ 0) :
    (h.alloc init).1.live? (h.alloc init).2 = some init := by
  cases hs : h.nextAllocSucceeds
  · exact absurd ((Heap.alloc_eq_zero_iff h init).mpr hs) hne
  · rw [Heap.alloc_of_succeeds init hs]
    simp [Heap.live?, Heap.cell?, hr]

theorem Heap.alloc_live_old {h : Heap} (init : DBusMessage) {p : Nat} {c : DBusMessage}
    (hl : h.live? p = some c) : (h.alloc init).1.live? p = some c := by
  have hlt := Heap.lt_of_live hl
  obtain ⟨hp, hc, hr⟩ := Heap.live?_eq_some.mp hl
  apply Heap.live?_eq_some.mpr
  refine ⟨hp, ?_, hr⟩
  cases hs : h.nextAllocSucceeds
  · rw [Heap.alloc_of_fails init hs]; exact hc
  · rw [Heap.alloc_of_succeeds init hs]
    simp only []
    rw [List.getElem?_append_left hlt]
    exact hc

theorem dbus_message_get_reply_serial_alloc (h : Heap) (init : DBusMessage)
    (hz : init.reply_serial = 0) :
    dbus_message_get_reply_serial (h.alloc init).1 (h.alloc init).2 = 0 := by
  unfold dbus_message_get_reply_serial
  cases hl : (h.alloc init).1.live? (h.alloc init).2 with
  | none => rfl
  | some c =>
    cases hs : h.nextAllocSucceeds
    · rw [Heap.alloc_of_fails init hs] at hl
      simp [Heap.live?_zero] at hl
    · rw [Heap.alloc_of_succeeds init hs] at hl
      obtain ⟨-, hc, -⟩ := Heap.live?_eq_some.mp hl
      simp at hc
      subst hc
      exact hz

theorem Message.NewInstance_eq (h : Heap) (msg : Nat) :
    Message.NewInstance h msg = (h, Except.ok (Message.mk_ msg)) := by
  simp [Message.NewInstance, Message.New, v8_utils.argumentCountMismatch, Arguments.Length,
    Arguments.get]

theorem Message.CreateMethodCall_eq (h : Heap) (args : Arguments) (d p i m : String)
    (ha : args.argv = [Value.string d, Value.string p, Value.string i, Value.string m]) :
    Message.CreateMethodCall h args =
      if (dbus_message_new_method_call h (Utf8Value.c_str d) (Utf8Value.c_str p)
            (Utf8Value.c_str i) (Utf8Value.c_str m)).2 = 0 then
        ((dbus_message_new_method_call h (Utf8Value.c_str d) (Utf8Value.c_str p)
            (Utf8Value.c_str i) (Utf8Value.c_str m)).1, Except.error (Exception.error "Out of memory"))
      else
        ((dbus_message_new_method_call h (Utf8Value.c_str d) (Utf8Value.c_str p)
            (Utf8Value.c_str i) (Utf8Value.c_str m)).1,
          Except.ok (Message.mk_ (dbus_message_new_method_call h (Utf8Value.c_str d)
            (Utf8Value.c_str p) (Utf8Value.c_str i) (Utf8Value.c_str m)).2)) := by
  simp [Message.CreateMethodCall, v8_utils.argumentCountMismatch, Arguments.Length,
    Arguments.get, ha, Message.NewInstance_eq, v8_utils.throwError]

theorem Message.CreateSignal_eq (h : Heap) (args : Arguments) (p i n : String)
    (ha : args.argv = [Value.string p, Value.string i, Value.string n]) :
    Message.CreateSignal h args =
      if (dbus_message_new_signal h (Utf8Value.c_str p) (Utf8Value.c_str i)
            (Utf8Value.c_str n)).2 = 0 then
        ((dbus_message_new_signal h (Utf8Value.c_str p) (Utf8Value.c_str i)
            (Utf8Value.c_str n)).1, Except.error (Exception.error "Out of memory"))
      else
        ((dbus_message_new_signal h (Utf8Value.c_str p) (Utf8Value.c_str i)
            (Utf8Value.c_str n)).1,
          Except.ok (Message.mk_ (dbus_message_new_signal h (Utf8Value.c_str p)
            (Utf8Value.c_str i) (Utf8Value.c_str n)).2)) := by
  simp [Message.CreateSignal, v8_utils.argumentCountMismatch, Arguments.Length,
    Arguments.get, ha, Message.NewInstance_eq, v8_utils.throwError]

theorem Message.CreateMethodReturn_eq (h : Heap) (args : Arguments) (src : Message)
    (ha : args.argv = [Value.message src]) :
    Message.CreateMethodReturn h args =
      if (dbus_message_new_method_return h args.Holder.message_).2 = 0 then
        ((dbus_message_new_method_return h args.Holder.message_).1,
          Except.error (Exception.error "Out of memory"))
      else
        ((dbus_message_new_method_return h args.Holder.message_).1,
          Except.ok (Message.mk_ (dbus_message_new_method_return h args.Holder.message_).2)) := by
  simp [Message.CreateMethodReturn, v8_utils.argumentCountMismatch, Arguments.Length,
    Arguments.get, ha, Message.NewInstance_eq, v8_utils.throwError, Message.HasInstance]

theorem Message.CreateErrorMessage_eq (h : Heap) (args : Arguments) (src : Message)
    (n e : String)
    (ha : args.argv = [Value.message src, Value.string n, Value.string e]) :
    Message.CreateErrorMessage h args =
      if (dbus_message_new_error h args.Holder.message_ (Utf8Value.c_str n)
            (Utf8Value.c_str e)).2 = 0 then
        ((dbus_message_new_error h args.Holder.message_ (Utf8Value.c_str n)
            (Utf8Value.c_str e)).1, Except.error (Exception.error "Out of memory"))
      else
        ((dbus_message_new_error h args.Holder.message_ (Utf8Value.c_str n)
            (Utf8Value.c_str e)).1,
          Except.ok (Message.mk_ (dbus_message_new_error h args.Holder.message_
            (Utf8Value.c_str n) (Utf8Value.c_str e)).2)) := by
  simp [Message.CreateErrorMessage, v8_utils.argumentCountMismatch, Arguments.Length,
    Arguments.get, ha, Message.NewInstance_eq, v8_utils.throwError, Message.HasInstance]

/-- A successful `CreateMethodCall` was given four strings. -/
theorem Message.CreateMethodCall_ok_inv {h : Heap} {args : Arguments} {msg : Message}
    (hok : (Message.CreateMethodCall h args).2 = Except.ok msg) :
    ∃ d p i m, args.argv = [Value.string d, Value.string p, Value.string i, Value.string m] := by
  obtain ⟨holder, argv⟩ := args
  unfold Message.CreateMethodCall at hok
  simp only [v8_utils.argumentCountMismatch, Arguments.Length, bne_iff_ne, ne_eq] at hok
  by_cases hlen : argv.length = 4
  · match argv, hlen with
    | [a, b, c, e], _ =>
      simp only [Arguments.get, List.getD_cons_zero, List.getD_cons_succ] at hok
      cases a with
      | string d =>
        cases b with
        | string p =>
          cases c with
          | string i =>
            cases e with
            | string m => exact ⟨d, p, i, m, rfl⟩
            | _ => simp at hok
          | _ => simp at hok
        | _ => simp at hok
      | _ => simp at hok
  · simp [hlen] at hok

/-- A successful `CreateSignal` was given three strings. -/
theorem Message.CreateSignal_ok_inv {h : Heap} {args : Arguments} {msg : Message}
    (hok : (Message.CreateSignal h args).2 = Except.ok msg) :
    ∃ p i n, args.argv = [Value.string p, Value.string i, Value.string n] := by
  obtain ⟨holder, argv⟩ := args
  unfold Message.CreateSignal at hok
  simp only [v8_utils.argumentCountMismatch, Arguments.Length, bne_iff_ne, ne_eq] at hok
  by_cases hlen : argv.length = 3
  · match argv, hlen with
    | [a, b, c], _ =>
      simp only [Arguments.get, List.getD_cons_zero, List.getD_cons_succ] at hok
      cases a with
      | string p =>
        cases b with
        | string i =>
          cases c with
          | string n => exact ⟨p, i, n, rfl⟩
          | _ => simp at hok
        | _ => simp at hok
      | _ => simp at hok
  · simp [hlen] at hok

/-- A successful `CreateMethodReturn` was given one `Message`. -/
theorem Message.CreateMethodReturn_ok_inv {h : Heap} {args : Arguments} {msg : Message}
    (hok : (Message.CreateMethodReturn h args).2 = Except.ok msg) :
    ∃ src, args.argv = [Value.message src] := by
  obtain ⟨holder, argv⟩ := args
  unfold Message.CreateMethodReturn at hok
  simp only [v8_utils.argumentCountMismatch, Arguments.Length, bne_iff_ne, ne_eq] at hok
  by_cases hlen : argv.length = 1
  · match argv, hlen with
    | [a], _ =>
      simp only [Arguments.get, List.getD_cons_zero] at hok
      cases a with
      | message src => exact ⟨src, rfl⟩
      | _ => simp [Message.HasInstance] at hok
  · simp [hlen] at hok

/-- A successful `CreateErrorMessage` was given a `Message` and two strings. -/
theorem Message.CreateErrorMessage_ok_inv {h : Heap} {args : Arguments} {msg : Message}
    (hok : (Message.CreateErrorMessage h args).2 = Except.ok msg) :
    ∃ src n e, args.argv = [Value.message src, Value.string n, Value.string e] := by
  obtain ⟨holder, argv⟩ := args
  unfold Message.CreateErrorMessage at hok
  simp only [v8_utils.argumentCountMismatch, Arguments.Length, bne_iff_ne, ne_eq] at hok
  by_cases hlen : argv.length = 3
  · match argv, hlen with
    | [a, b, c], _ =>
      simp only [Arguments.get, List.getD_cons_zero, List.getD_cons_succ] at hok
      cases a with
      | message src =>
        cases b with
        | string n =>
          cases c with
          | string e => exact ⟨src, n, e, rfl⟩
          | _ => simp [Message.HasInstance] at hok
        | _ => simp [Message.HasInstance] at hok
      | _ => simp [Message.HasInstance] at hok
  · simp [hlen] at hok

theorem Message.New_int32 (h : Heap) (args : Arguments) (t : Int)
    (ha : args.argv = [Value.number t]) (ht : (Value.number t).IsInt32 = true) :
    Message.New h args =
      ((dbus_message_new h t).1, Except.ok (Message.mk_ (dbus_message_new h t).2)) := by
  simp [Message.New, v8_utils.argumentCountMismatch, Arguments.Length, Arguments.get, ha, ht]

theorem Message.New_not_int32 (h : Heap) (args : Arguments) (v : Value)
    (ha : args.argv = [v]) (hx : v.IsExternal = false) (ht : v.IsInt32 = false) :
    Message.New h args =
      (h, Except.error (Exception.typeError "argument 1 must be an integer (DBusMessageType)")) := by
  cases v <;>
    simp_all [Message.New, v8_utils.argumentCountMismatch, Arguments.Length, Arguments.get,
      v8_utils.throwTypeError, Value.IsExternal, Value.IsInt32]

theorem DBusMessage.kind_empty_with (c : DBusMessage) (t : Int) (ht : c.type = t) :
    c.kind = kindOfType t := by
  simp [DBusMessage.kind, ht]

theorem dbus_message_new_method_return_of_live {h : Heap} {p : Nat} {c : DBusMessage}
    (hl : h.live? p = some c) :
    dbus_message_new_method_return h p =
      h.alloc { DBusMessage.empty DBUS_MESSAGE_TYPE_METHOD_RETURN with
        reply_serial := c.serial } := by
  simp [dbus_message_new_method_return, hl]

theorem dbus_message_new_method_return_of_dead {h : Heap} {p : Nat}
    (hl : h.live? p = none) :
    dbus_message_new_method_return h p = ({ h with newCalls := h.newCalls + 1 }, 0) := by
  simp [dbus_message_new_method_return, hl]

theorem dbus_message_new_error_of_live {h : Heap} {p : Nat} {c : DBusMessage}
    (n e : String) (hl : h.live? p = some c) :
    dbus_message_new_error h p n e =
      h.alloc { DBusMessage.empty DBUS_MESSAGE_TYPE_ERROR with
        reply_serial := c.serial, error_name := some n, error_message := some e } := by
  simp [dbus_message_new_error, hl]

theorem dbus_message_new_error_of_dead {h : Heap} {p : Nat} (n e : String)
    (hl : h.live? p = none) :
    dbus_message_new_error h p n e = ({ h with newCalls := h.newCalls + 1 }, 0) := by
  simp [dbus_message_new_error, hl]

theorem dbus_message_new_method_return_newCalls (h : Heap) (p : Nat) :
    (dbus_message_new_method_return h p).1.newCalls = h.newCalls + 1 := by
  cases hl : h.live? p with
  | none => rw [dbus_message_new_method_return_of_dead hl]
  | some c => rw [dbus_message_new_method_return_of_live hl]; exact Heap.alloc_newCalls h _

theorem dbus_message_new_error_newCalls (h : Heap) (p : Nat) (n e : String) :
    (dbus_message_new_error h p n e).1.newCalls = h.newCalls + 1 := by
  cases hl : h.live? p with
  | none => rw [dbus_message_new_error_of_dead n e hl]
  | some c => rw [dbus_message_new_error_of_live n e hl]; exact Heap.alloc_newCalls h _

theorem dbus_message_new_method_return_eq_zero_iff (h : Heap) (p : Nat) :
    (dbus_message_new_method_return h p).2 = 0 ↔
      (h.nextAllocSucceeds = false ∨ h.live? p = none) := by
  cases hl : h.live? p with
  | none => rw [dbus_message_new_method_return_of_dead hl]; simp
  | some c =>
    rw [dbus_message_new_method_return_of_live hl, Heap.alloc_eq_zero_iff]
    simp

theorem dbus_message_new_error_eq_zero_iff (h : Heap) (p : Nat) (n e : String) :
    (dbus_message_new_error h p n e).2 = 0 ↔
      (h.nextAllocSucceeds = false ∨ h.live? p = none) := by
  cases hl : h.live? p with
  | none => rw [dbus_message_new_error_of_dead n e hl]; simp
  | some c =>
    rw [dbus_message_new_error_of_live n e hl, Heap.alloc_eq_zero_iff]
    simp

/-- What a payload constructor that returned a payload left in the heap. -/
theorem dbus_message_new_method_call_live (h : Heap) (d p i m : String)
    (hne : (dbus_message_new_method_call h d p i m).2 ≠ 0) :
    (dbus_message_new_method_call h d p i m).1.live? (dbus_message_new_method_call h d p i m).2 =
      some { DBusMessage.empty DBUS_MESSAGE_TYPE_METHOD_CALL with
        destination := some d, path := some p, interface := some i, member := some m } :=
  Heap.alloc_live hne (by simp [DBusMessage.empty])

theorem dbus_message_new_signal_live (h : Heap) (p i n : String)
    (hne : (dbus_message_new_signal h p i n).2 ≠ 0) :
    (dbus_message_new_signal h p i n).1.live? (dbus_message_new_signal h p i n).2 =
      some { DBusMessage.empty DBUS_MESSAGE_TYPE_SIGNAL with
        path := some p, interface := some i, member := some n } :=
  Heap.alloc_live hne (by simp [DBusMessage.empty])

theorem dbus_message_new_method_return_live (h : Heap) (p : Nat)
    (hne : (dbus_message_new_method_return h p).2 ≠ 0) :
    ∃ c, h.live? p = some c ∧
      (dbus_message_new_method_return h p).1.live? (dbus_message_new_method_return h p).2 =
        some { DBusMessage.empty DBUS_MESSAGE_TYPE_METHOD_RETURN with
          reply_serial := c.serial } := by
  cases hl : h.live? p with
  | none => rw [dbus_message_new_method_return_of_dead hl] at hne; exact absurd rfl hne
  | some c =>
    refine ⟨c, rfl, ?_⟩
    rw [dbus_message_new_method_return_of_live hl] at hne ⊢
    exact Heap.alloc_live hne (by simp [DBusMessage.empty])

theorem dbus_message_new_error_live (h : Heap) (p : Nat) (n e : String)
    (hne : (dbus_message_new_error h p n e).2 ≠ 0) :
    ∃ c, h.live? p = some c ∧
      (dbus_message_new_error h p n e).1.live? (dbus_message_new_error h p n e).2 =
        some { DBusMessage.empty DBUS_MESSAGE_TYPE_ERROR with
          reply_serial := c.serial, error_name := some n, error_message := some e } := by
  cases hl : h.live? p with
  | none => rw [dbus_message_new_error_of_dead n e hl] at hne; exact absurd rfl hne
  | some c =>
    refine ⟨c, rfl, ?_⟩
    rw [dbus_message_new_error_of_live n e hl] at hne ⊢
    exact Heap.alloc_live hne (by simp [DBusMessage.empty])

theorem dbus_message_new_method_return_fresh (h : Heap) (p : Nat) :
    h.cell? (dbus_message_new_method_return h p).2 = none := by
  cases hl : h.live? p with
  | none => rw [dbus_message_new_method_return_of_dead hl]; simp [Heap.cell?]
  | some c => rw [dbus_message_new_method_return_of_live hl]; exact Heap.alloc_fresh h _

theorem dbus_message_new_error_fresh (h : Heap) (p : Nat) (n e : String) :
    h.cell? (dbus_message_new_error h p n e).2 = none := by
  cases hl : h.live? p with
  | none => rw [dbus_message_new_error_of_dead n e hl]; simp [Heap.cell?]
  | some c => rw [dbus_message_new_error_of_live n e hl]; exact Heap.alloc_fresh h _

/-- The tail shared by the four typed constructors: `NULL` is surfaced as
"Out of memory", anything else is wrapped. -/
theorem surface_or_wrap (lib : Heap × Nat) :
    ((if lib.2 = 0 then (lib.1, Except.error (Exception.error "Out of memory"))
        else (lib.1, Except.ok (Message.mk_ lib.2)) : Heap × Except Exception Message).2 =
        Except.error (Exception.error "Out of memory") ↔ lib.2 = 0) ∧
    (lib.2 ≠ 0 →
      (if lib.2 = 0 then (lib.1, Except.error (Exception.error "Out of memory"))
        else (lib.1, Except.ok (Message.mk_ lib.2)) : Heap × Except Exception Message).2 =
        Except.ok (Message.mk_ lib.2)) ∧
    (if lib.2 = 0 then (lib.1, Except.error (Exception.error "Out of memory"))
        else (lib.1, Except.ok (Message.mk_ lib.2)) : Heap × Except Exception Message).1 =
      lib.1 := by
  by_cases hz : lib.2 = 0 <;> simp [hz]

theorem Heap.cell?_set_same {h : Heap} {p : Nat} {c d : DBusMessage}
    (hl : h.live? p = some c) :
    (h.setCell p d).cell? p = some d := by
  have hlt := Heap.lt_of_live hl
  obtain ⟨hp, -, -⟩ := Heap.live?_eq_some.mp hl
  simp [Heap.cell?, Heap.setCell, hp, List.getElem?_set, hlt]

theorem Heap.cell?_set_other {h : Heap} {p q : Nat} {d : DBusMessage}
    (hp : p ≠ 0) (hq : q ≠ p) :
    (h.setCell p d).cell? q = h.cell? q := by
  unfold Heap.cell? Heap.setCell
  by_cases hq0 : q = 0
  · simp [hq0]
  · have hne : p - 1 ≠ q - 1 := by omega
    simp [hq0, List.getElem?_set, hne]

theorem Heap.live?_set_same {h : Heap} {p : Nat} {c d : DBusMessage}
    (hl : h.live? p = some c) (hd : d.refcount ≠ 0) :
    (h.setCell p d).live? p = some d := by
  have hc := Heap.cell?_set_same (d := d) hl
  unfold Heap.live?
  rw [hc]
  simp [hd]

/-! ## The reference-count discipline of wrap and destroy -/

/-- C10: wrapping a live payload handed in from outside leaves the heap as it
was (reference count and release counter untouched); destroying the wrapping
`Message` releases that payload exactly once (one reference dropped, the
release counter up by one, so from 0 to 1), touches no other payload, and
clears `message_`, so that destroying again releases nothing; a `Message`
with a null payload releases nothing. -/
theorem C10_wrap_then_destroy_releases_once (h : Heap) (p : Nat) (c : DBusMessage)
    (hl : h.live? p = some c) :
    Message.NewWrapping h p = (h, Except.ok (Message.mk_ p)) ∧
    (Message.destroy h (Message.mk_ p)).1.cell? p =
      some c.released ∧
    (c.unrefs = 0 →
      Option.map DBusMessage.unrefs ((Message.destroy h (Message.mk_ p)).1.cell? p) = some 1) ∧
    (∀ q, q ≠ p → (Message.destroy h (Message.mk_ p)).1.cell? q = h.cell? q) ∧
    (Message.destroy h (Message.mk_ p)).2.message_ = 0 ∧
    Message.destroy (Message.destroy h (Message.mk_ p)).1 (Message.destroy h (Message.mk_ p)).2 =
      Message.destroy h (Message.mk_ p) ∧
    Message.destroy h (Message.mk_ 0) = (h, Message.mk_ 0) := by
  obtain ⟨hp, -, -⟩ := Heap.live?_eq_some.mp hl
  have hd : Message.destroy h (Message.mk_ p) =
      (h.setCell p c.released, { message_ := 0 }) := by
    simp [Message.destroy, Message.mk_, hp, dbus_message_unref, Heap.cell?_of_live hl]
  have hcell : (h.setCell p c.released).cell? p =
      some c.released := Heap.cell?_set_same hl
  refine ⟨?_, ?_, ?_, ?_, ?_, ?_, ?_⟩
  · simp [Message.NewWrapping, Message.NewInstance, Message.New, v8_utils.argumentCountMismatch,
      Arguments.Length, Arguments.get]
  · rw [hd]; exact hcell
  · intro hz
    rw [hd]
    simp only []
    rw [hcell]
    simp [DBusMessage.released, hz]
  · intro q hq
    rw [hd]
    exact Heap.cell?_set_other hp hq
  · rw [hd]
  · rw [hd]
    simp [Message.destroy]
  · simp [Message.destroy, Message.mk_]

/-- C10, at a concrete heap: the payload at address 1 of `twoReceived`. -/
theorem C10_wrap_then_destroy_releases_once_witness :
    twoReceived.live? 1 = some (received 5) ∧
    Message.NewWrapping twoReceived 1 = (twoReceived, Except.ok (Message.mk_ 1)) ∧
    (Message.destroy twoReceived (Message.mk_ 1)).1.cell? 1 =
      some (received 5).released :=
  ⟨by decide,
   (C10_wrap_then_destroy_releases_once twoReceived 1 (received 5) (by decide)).1,
   (C10_wrap_then_destroy_releases_once twoReceived 1 (received 5) (by decide)).2.1⟩

/-! ## The serial accessors -/

theorem Value.IsUint32_iff (value : Value) :
    value.IsUint32 = true ↔ ∃ n : Int, value = Value.number n ∧ 0 ≤ n ∧ n ≤ 4294967295 := by
  cases value <;> simp [Value.IsUint32]

theorem Message.SetReplySerial_of_not_uint32 (h : Heap) (holder : Message) (value : Value)
    (hv : value.IsUint32 = false) :
    Message.SetReplySerial h holder value =
      (h, some (Exception.typeError "reply serial must be an unsigned integer")) := by
  simp [Message.SetReplySerial, hv, v8_utils.throwTypeError]

theorem Message.SetReplySerial_of_uint32 (h : Heap) (holder : Message) (n : Int)
    (h0 : 0 ≤ n) (h1 : n ≤ 4294967295) :
    Message.SetReplySerial h holder (Value.number n) =
      (dbus_message_set_reply_serial h holder.message_ n.toNat, none) := by
  simp [Message.SetReplySerial, Value.IsUint32, h0, h1]

/-- C4, as stated, fails: negative zero is the integer 0, which lies in
0..4294967295, and `setReplySerial(-0)` throws the type error. -/
theorem C4_counterexample_negative_zero :
    Value.negativeZero.integerValue? = some 0 ∧
    (0 : Int) ≤ 0 ∧ (0 : Int) ≤ 4294967295 ∧
    Message.SetReplySerial twoReceived (Message.mk_ 1) Value.negativeZero =
      (twoReceived,
        some (Exception.typeError "reply serial must be an unsigned integer")) := by
  decide

/-- C4, amended: `setReplySerial(value)` throws exactly when `value` is not a
Uint32, that is, not a Number other than negative zero with an integral value
in 0..4294967295; what it throws is the type error (an `InvalidArgument`),
and the heap, hence the reply serial read back, is then unchanged. It accepts
0 and 4294967295 and rejects -1, 4294967296, negative zero and every value
that is not an integral Number. -/
theorem C4_setReplySerial_rejects_exactly_non_uint32 (h : Heap) (holder : Message)
    (value : Value) :
    ((Message.SetReplySerial h holder value).2 ≠ none ↔
      ¬ ∃ n : Int, value = Value.number n ∧ 0 ≤ n ∧ n ≤ 4294967295) ∧
    (∀ e, (Message.SetReplySerial h holder value).2 = some e →
      e = Exception.typeError "reply serial must be an unsigned integer" ∧
      e.isInvalidArgument = true ∧
      (Message.SetReplySerial h holder value).1 = h ∧
      Message.GetReplySerial (Message.SetReplySerial h holder value).1 holder =
        Message.GetReplySerial h holder) ∧
    (Message.SetReplySerial h holder (Value.number 0)).2 = none ∧
    (Message.SetReplySerial h holder (Value.number 4294967295)).2 = none ∧
    (Message.SetReplySerial h holder (Value.number (-1))).2 ≠ none ∧
    (Message.SetReplySerial h holder (Value.number 4294967296)).2 ≠ none ∧
    (∀ v : Value, (∀ n : Int, v ≠ Value.number n) →
      (Message.SetReplySerial h holder v).2 ≠ none) ∧
    (Message.SetReplySerial h holder Value.negativeZero).2 ≠ none ∧
    (∀ v : Value, v.integerValue? = none →
      (Message.SetReplySerial h holder v).2 ≠ none) := by
  have hother : ∀ v : Value, (∀ n : Int, v ≠ Value.number n) →
      (Message.SetReplySerial h holder v).2 ≠ none := by
    intro v hv
    have hu : v.IsUint32 = false := by
      cases hx : v.IsUint32
      · rfl
      · obtain ⟨n, hn, -, -⟩ := (Value.IsUint32_iff v).mp hx
        exact absurd hn (hv n)
    rw [Message.SetReplySerial_of_not_uint32 h holder v hu]
    simp
  refine ⟨?_, ?_, ?_, ?_, ?_, ?_, hother, ?_, ?_⟩
  rotate_left 6
  · exact hother _ (fun n hn => by cases hn)
  · intro v hv
    apply hother
    intro n hn
    subst hn
    simp [Value.integerValue?] at hv
  · rw [← Value.IsUint32_iff]
    cases hv : value.IsUint32
    · rw [Message.SetReplySerial_of_not_uint32 h holder value hv]
      simp
    · obtain ⟨n, rfl, h0, h1⟩ := (Value.IsUint32_iff value).mp hv
      rw [Message.SetReplySerial_of_uint32 h holder n h0 h1]
      simp
  · intro e he
    cases hv : value.IsUint32
    · rw [Message.SetReplySerial_of_not_uint32 h holder value hv] at he ⊢
      simp only [Option.some.injEq] at he
      subst he
      exact ⟨rfl, rfl, rfl, rfl⟩
    · obtain ⟨n, rfl, h0, h1⟩ := (Value.IsUint32_iff value).mp hv
      rw [Message.SetReplySerial_of_uint32 h holder n h0 h1] at he
      cases he
  · rw [Message.SetReplySerial_of_uint32 h holder 0 (by decide) (by decide)]
  · rw [Message.SetReplySerial_of_uint32 h holder 4294967295 (by decide) (by decide)]
  · rw [Message.SetReplySerial_of_not_uint32 h holder _ (by decide)]
    simp
  · rw [Message.SetReplySerial_of_not_uint32 h holder _ (by decide)]
    simp

/-- C9, as stated, fails: the generic constructor called with the tag 1 while
the allocation fails returns a `Message` on the null payload; on it
`setReplySerial(42)` is accepted and the getter then reads 0. -/
theorem C9_counterexample_null_payload :
    Message.New exhaustedHeap { Holder := Message.mk_ 0, argv := [Value.number 1] } =
      ({ cells := [], allocPlan := [], newCalls := 1 }, Except.ok (Message.mk_ 0)) ∧
    (Message.SetReplySerial { cells := [], allocPlan := [], newCalls := 1 } (Message.mk_ 0)
      (Value.number 42)).2 = none ∧
    Message.GetReplySerial
      (Message.SetReplySerial { cells := [], allocPlan := [], newCalls := 1 } (Message.mk_ 0)
        (Value.number 42)).1 (Message.mk_ 0) = Value.number 0 ∧
    Value.number 0 ≠ Value.number 42 := by
  decide

/-- C9, amended: on a `Message` holding a live payload, of any kind, setting
the reply serial to an unsigned 32-bit value `v` succeeds and the getter then
returns `v`, whatever was stored before; the kind and the serial of the
payload are unchanged. A message fresh from the generic constructor, from
`createMethodCall` or from `createSignal` reads reply serial 0. -/
theorem C9_setReplySerial_then_get (h : Heap) (holder : Message) (c : DBusMessage) (v : Nat)
    (hl : h.live? holder.message_ = some c) (hv : v ≤ 4294967295) :
    (Message.SetReplySerial h holder (Value.number v)).2 = none ∧
    Message.GetReplySerial (Message.SetReplySerial h holder (Value.number v)).1 holder =
      Value.number v ∧
    Option.map DBusMessage.kind
      ((Message.SetReplySerial h holder (Value.number v)).1.live? holder.message_) =
      some c.kind ∧
    Message.GetSerial (Message.SetReplySerial h holder (Value.number v)).1 holder =
      Message.GetSerial h holder ∧
    (∀ (g : Heap) (args : Arguments) (t : Int) (m : Message),
      args.argv = [Value.number t] → (Message.New g args).2 = Except.ok m →
      Message.GetReplySerial (Message.New g args).1 m = Value.number 0) ∧
    (∀ (g : Heap) (args : Arguments) (m : Message),
      (Message.CreateMethodCall g args).2 = Except.ok m →
      Message.GetReplySerial (Message.CreateMethodCall g args).1 m = Value.number 0) ∧
    (∀ (g : Heap) (args : Arguments) (m : Message),
      (Message.CreateSignal g args).2 = Except.ok m →
      Message.GetReplySerial (Message.CreateSignal g args).1 m = Value.number 0) := by
  have h0 : (0 : Int) ≤ (v : Int) := Int.ofNat_nonneg v
  have h1 : (v : Int) ≤ 4294967295 := by exact_mod_cast hv
  have hset : Message.SetReplySerial h holder (Value.number v) =
      (h.setCell holder.message_ (c.withReplySerial v), none) := by
    rw [Message.SetReplySerial_of_uint32 h holder v h0 h1]
    simp [dbus_message_set_reply_serial, hl]
  have hr : (c.withReplySerial v).refcount ≠ 0 := (Heap.live?_eq_some.mp hl).2.2
  have hlive : (h.setCell holder.message_ (c.withReplySerial v)).live? holder.message_ =
      some (c.withReplySerial v) :=
    Heap.live?_set_same hl hr
  refine ⟨?_, ?_, ?_, ?_, ?_, ?_, ?_⟩
  · rw [hset]
  · rw [hset]
    simp only [Message.GetReplySerial, dbus_message_get_reply_serial, hlive]
    rfl
  · rw [hset]
    simp only []
    rw [hlive]
    rfl
  · rw [hset]
    simp only [Message.GetSerial, dbus_message_get_serial, hlive, hl]
    rfl
  · intro g args t m ha hok
    cases ht : (Value.number t).IsInt32
    · rw [Message.New_not_int32 g args _ ha rfl ht] at hok
      cases hok
    · rw [Message.New_int32 g args t ha ht] at hok ⊢
      simp only [Except.ok.injEq] at hok
      subst hok
      simp only [Message.GetReplySerial, Message.mk_, dbus_message_new]
      rw [dbus_message_get_reply_serial_alloc g _ rfl]
      rfl
  · intro g args m hok
    obtain ⟨d, p, i, mm, ha⟩ := Message.CreateMethodCall_ok_inv hok
    rw [Message.CreateMethodCall_eq g args d p i mm ha] at hok ⊢
    split at hok
    · cases hok
    · rename_i hne
      simp only [if_neg hne]
      simp only [Except.ok.injEq] at hok
      subst hok
      simp only [Message.GetReplySerial, Message.mk_, dbus_message_new_method_call]
      rw [dbus_message_get_reply_serial_alloc g _ rfl]
      rfl
  · intro g args m hok
    obtain ⟨p, i, n, ha⟩ := Message.CreateSignal_ok_inv hok
    rw [Message.CreateSignal_eq g args p i n ha] at hok ⊢
    split at hok
    · cases hok
    · rename_i hne
      simp only [if_neg hne]
      simp only [Except.ok.injEq] at hok
      subst hok
      simp only [Message.GetReplySerial, Message.mk_, dbus_message_new_signal]
      rw [dbus_message_get_reply_serial_alloc g _ rfl]
      rfl

/-- C9, amended, at a concrete heap: reply serial 42 set on the received call at address 1. -/
theorem C9_setReplySerial_then_get_witness :
    twoReceived.live? 1 = some (received 5) ∧
    Message.GetReplySerial (Message.SetReplySerial twoReceived (Message.mk_ 1) (Value.number 42)).1
      (Message.mk_ 1) = Value.number 42 :=
  ⟨by decide,
   (C9_setReplySerial_then_get twoReceived (Message.mk_ 1) (received 5) 42
      (by decide) (by decide)).2.1⟩

/-! ## The typed constructors: allocation failure and kind -/

/-- C7: each typed constructor, called with well-typed arguments of the right
count, calls the payload constructor of the transport exactly once; it throws
"Out of memory" exactly when that call returned `NULL`, and otherwise returns
a `Message` wrapping the payload just returned, which is non-null, was not in
the heap before and is live after. For `createMethodCall` and `createSignal`
the call returns `NULL` exactly when the allocation fails. -/
theorem C7_out_of_memory_iff_no_payload (h : Heap) (holder src : Message)
    (d p i m n e : String) :
    (((Message.CreateMethodCall h (methodCallArgs holder d p i m)).2 =
          Except.error (Exception.error "Out of memory") ↔
        (dbus_message_new_method_call h (Utf8Value.c_str d) (Utf8Value.c_str p)
          (Utf8Value.c_str i) (Utf8Value.c_str m)).2 = 0) ∧
      (∀ q, q = (dbus_message_new_method_call h (Utf8Value.c_str d) (Utf8Value.c_str p)
          (Utf8Value.c_str i) (Utf8Value.c_str m)).2 → q ≠ 0 →
        (Message.CreateMethodCall h (methodCallArgs holder d p i m)).2 =
          Except.ok (Message.mk_ q) ∧
        h.cell? q = none ∧
        ((Message.CreateMethodCall h (methodCallArgs holder d p i m)).1.live? q).isSome = true) ∧
      (Message.CreateMethodCall h (methodCallArgs holder d p i m)).1.newCalls = h.newCalls + 1 ∧
      ((dbus_message_new_method_call h (Utf8Value.c_str d) (Utf8Value.c_str p)
          (Utf8Value.c_str i) (Utf8Value.c_str m)).2 = 0 ↔ h.nextAllocSucceeds = false)) ∧
    (((Message.CreateMethodReturn h (methodReturnArgs holder src)).2 =
          Except.error (Exception.error "Out of memory") ↔
        (dbus_message_new_method_return h holder.message_).2 = 0) ∧
      (∀ q, q = (dbus_message_new_method_return h holder.message_).2 → q ≠ 0 →
        (Message.CreateMethodReturn h (methodReturnArgs holder src)).2 =
          Except.ok (Message.mk_ q) ∧
        h.cell? q = none ∧
        ((Message.CreateMethodReturn h (methodReturnArgs holder src)).1.live? q).isSome = true) ∧
      (Message.CreateMethodReturn h (methodReturnArgs holder src)).1.newCalls =
        h.newCalls + 1 ∧
      (∀ c, h.live? holder.message_ = some c →
        ((dbus_message_new_method_return h holder.message_).2 = 0 ↔
          h.nextAllocSucceeds = false))) ∧
    (((Message.CreateErrorMessage h (errorMessageArgs holder src n e)).2 =
          Except.error (Exception.error "Out of memory") ↔
        (dbus_message_new_error h holder.message_ (Utf8Value.c_str n)
          (Utf8Value.c_str e)).2 = 0) ∧
      (∀ q, q = (dbus_message_new_error h holder.message_ (Utf8Value.c_str n)
          (Utf8Value.c_str e)).2 → q ≠ 0 →
        (Message.CreateErrorMessage h (errorMessageArgs holder src n e)).2 =
          Except.ok (Message.mk_ q) ∧
        h.cell? q = none ∧
        ((Message.CreateErrorMessage h (errorMessageArgs holder src n e)).1.live? q).isSome =
          true) ∧
      (Message.CreateErrorMessage h (errorMessageArgs holder src n e)).1.newCalls =
        h.newCalls + 1 ∧
      (∀ c, h.live? holder.message_ = some c →
        ((dbus_message_new_error h holder.message_ (Utf8Value.c_str n)
          (Utf8Value.c_str e)).2 = 0 ↔ h.nextAllocSucceeds = false))) ∧
    (((Message.CreateSignal h (signalArgs holder p i n)).2 =
          Except.error (Exception.error "Out of memory") ↔
        (dbus_message_new_signal h (Utf8Value.c_str p) (Utf8Value.c_str i)
          (Utf8Value.c_str n)).2 = 0) ∧
      (∀ q, q = (dbus_message_new_signal h (Utf8Value.c_str p) (Utf8Value.c_str i)
          (Utf8Value.c_str n)).2 → q ≠ 0 →
        (Message.CreateSignal h (signalArgs holder p i n)).2 = Except.ok (Message.mk_ q) ∧
        h.cell? q = none ∧
        ((Message.CreateSignal h (signalArgs holder p i n)).1.live? q).isSome = true) ∧
      (Message.CreateSignal h (signalArgs holder p i n)).1.newCalls = h.newCalls + 1 ∧
      ((dbus_message_new_signal h (Utf8Value.c_str p) (Utf8Value.c_str i)
          (Utf8Value.c_str n)).2 = 0 ↔ h.nextAllocSucceeds = false)) ∧
    (Exception.error "Out of memory").isOutOfMemory = true := by
  refine ⟨⟨?_, ?_, ?_, ?_⟩, ⟨?_, ?_, ?_, ?_⟩, ⟨?_, ?_, ?_, ?_⟩, ⟨?_, ?_, ?_, ?_⟩, by decide⟩
  · rw [Message.CreateMethodCall_eq h _ d p i m rfl]
    exact (surface_or_wrap _).1
  · intro q hq hne
    subst hq
    rw [Message.CreateMethodCall_eq h _ d p i m rfl]
    refine ⟨(surface_or_wrap _).2.1 hne, Heap.alloc_fresh h _, ?_⟩
    rw [(surface_or_wrap _).2.2, dbus_message_new_method_call_live h _ _ _ _ hne]
    rfl
  · rw [Message.CreateMethodCall_eq h _ d p i m rfl, (surface_or_wrap _).2.2]
    exact Heap.alloc_newCalls h _
  · exact Heap.alloc_eq_zero_iff h _
  · rw [Message.CreateMethodReturn_eq h _ src rfl]
    exact (surface_or_wrap _).1
  · intro q hq hne
    subst hq
    rw [Message.CreateMethodReturn_eq h _ src rfl]
    refine ⟨(surface_or_wrap _).2.1 hne, dbus_message_new_method_return_fresh h _, ?_⟩
    obtain ⟨c, -, hc⟩ := dbus_message_new_method_return_live h holder.message_ hne
    rw [(surface_or_wrap _).2.2]
    simp only [methodReturnArgs]
    rw [hc]
    rfl
  · rw [Message.CreateMethodReturn_eq h _ src rfl, (surface_or_wrap _).2.2]
    exact dbus_message_new_method_return_newCalls h _
  · intro c hc
    rw [dbus_message_new_method_return_eq_zero_iff, hc]
    simp
  · rw [Message.CreateErrorMessage_eq h _ src n e rfl]
    exact (surface_or_wrap _).1
  · intro q hq hne
    subst hq
    rw [Message.CreateErrorMessage_eq h _ src n e rfl]
    refine ⟨(surface_or_wrap _).2.1 hne, dbus_message_new_error_fresh h _ _ _, ?_⟩
    obtain ⟨c, -, hc⟩ := dbus_message_new_error_live h holder.message_ _ _ hne
    rw [(surface_or_wrap _).2.2]
    simp only [errorMessageArgs]
    rw [hc]
    rfl
  · rw [Message.CreateErrorMessage_eq h _ src n e rfl, (surface_or_wrap _).2.2]
    exact dbus_message_new_error_newCalls h _ _ _
  · intro c hc
    rw [dbus_message_new_error_eq_zero_iff, hc]
    simp
  · rw [Message.CreateSignal_eq h _ p i n rfl]
    exact (surface_or_wrap _).1
  · intro q hq hne
    subst hq
    rw [Message.CreateSignal_eq h _ p i n rfl]
    refine ⟨(surface_or_wrap _).2.1 hne, Heap.alloc_fresh h _, ?_⟩
    rw [(surface_or_wrap _).2.2, dbus_message_new_signal_live h _ _ _ hne]
    rfl
  · rw [Message.CreateSignal_eq h _ p i n rfl, (surface_or_wrap _).2.2]
    exact Heap.alloc_newCalls h _
  · exact Heap.alloc_eq_zero_iff h _

/-- C7, at concrete heaps: `createSignal` throws "Out of memory" on the heap
whose next allocation fails, and makes one constructor call on the empty heap. -/
theorem C7_out_of_memory_iff_no_payload_witness :
    (Message.CreateSignal exhaustedHeap
        (signalArgs (Message.mk_ 0) "/a/b" "com.x.Y" "Changed")).2 =
      Except.error (Exception.error "Out of memory") ∧
    (Message.CreateSignal emptyHeap
        (signalArgs (Message.mk_ 0) "/a/b" "com.x.Y" "Changed")).1.newCalls = 0 + 1 :=
  ⟨(C7_out_of_memory_iff_no_payload exhaustedHeap (Message.mk_ 0) (Message.mk_ 0)
      "" "/a/b" "com.x.Y" "" "Changed" "").2.2.2.1.1.mpr (by decide),
   (C7_out_of_memory_iff_no_payload emptyHeap (Message.mk_ 0) (Message.mk_ 0)
      "" "/a/b" "com.x.Y" "" "Changed" "").2.2.2.1.2.2.1⟩

/-- C8: whenever a typed constructor returns a `Message`, its payload is live
and has the kind of the constructor: `MethodCall` for `createMethodCall`,
`MethodReturn` for `createMethodReturn`, `Error` for `createErrorMessage`,
`Signal` for `createSignal`. -/
theorem C8_typed_constructor_kind (h : Heap) (args : Arguments) (msg : Message) :
    ((Message.CreateMethodCall h args).2 = Except.ok msg →
      Option.map DBusMessage.kind ((Message.CreateMethodCall h args).1.live? msg.message_) =
        some Kind.MethodCall) ∧
    ((Message.CreateMethodReturn h args).2 = Except.ok msg →
      Option.map DBusMessage.kind ((Message.CreateMethodReturn h args).1.live? msg.message_) =
        some Kind.MethodReturn) ∧
    ((Message.CreateErrorMessage h args).2 = Except.ok msg →
      Option.map DBusMessage.kind ((Message.CreateErrorMessage h args).1.live? msg.message_) =
        some Kind.Error) ∧
    ((Message.CreateSignal h args).2 = Except.ok msg →
      Option.map DBusMessage.kind ((Message.CreateSignal h args).1.live? msg.message_) =
        some Kind.Signal) := by
  refine ⟨?_, ?_, ?_, ?_⟩
  · intro hok
    obtain ⟨d, p, i, m, ha⟩ := Message.CreateMethodCall_ok_inv hok
    rw [Message.CreateMethodCall_eq h args d p i m ha] at hok ⊢
    split at hok
    · cases hok
    · rename_i hne
      simp only [if_neg hne]
      simp only [Except.ok.injEq] at hok
      subst hok
      simp only [Message.mk_]
      rw [dbus_message_new_method_call_live h _ _ _ _ hne]
      rfl
  · intro hok
    obtain ⟨src, ha⟩ := Message.CreateMethodReturn_ok_inv hok
    rw [Message.CreateMethodReturn_eq h args src ha] at hok ⊢
    split at hok
    · cases hok
    · rename_i hne
      simp only [if_neg hne]
      simp only [Except.ok.injEq] at hok
      subst hok
      simp only [Message.mk_]
      obtain ⟨c, -, hc⟩ := dbus_message_new_method_return_live h _ hne
      rw [hc]
      rfl
  · intro hok
    obtain ⟨src, n, e, ha⟩ := Message.CreateErrorMessage_ok_inv hok
    rw [Message.CreateErrorMessage_eq h args src n e ha] at hok ⊢
    split at hok
    · cases hok
    · rename_i hne
      simp only [if_neg hne]
      simp only [Except.ok.injEq] at hok
      subst hok
      simp only [Message.mk_]
      obtain ⟨c, -, hc⟩ := dbus_message_new_error_live h _ _ _ hne
      rw [hc]
      rfl
  · intro hok
    obtain ⟨p, i, n, ha⟩ := Message.CreateSignal_ok_inv hok
    rw [Message.CreateSignal_eq h args p i n ha] at hok ⊢
    split at hok
    · cases hok
    · rename_i hne
      simp only [if_neg hne]
      simp only [Except.ok.injEq] at hok
      subst hok
      simp only [Message.mk_]
      rw [dbus_message_new_signal_live h _ _ _ hne]
      rfl

/-- C8, at concrete calls: one successful call of each typed constructor. -/
theorem C8_typed_constructor_kind_witness :
    ((Message.CreateMethodCall emptyHeap (methodCallArgs (Message.mk_ 0)
        "org.example.Dest" "/obj" "org.example.Iface" "Method")).2 = Except.ok (Message.mk_ 1) ∧
      Option.map DBusMessage.kind ((Message.CreateMethodCall emptyHeap
        (methodCallArgs (Message.mk_ 0) "org.example.Dest" "/obj" "org.example.Iface"
          "Method")).1.live? 1) = some Kind.MethodCall) ∧
    ((Message.CreateMethodReturn twoReceived
        (methodReturnArgs (Message.mk_ 1) (Message.mk_ 1))).2 = Except.ok (Message.mk_ 3) ∧
      Option.map DBusMessage.kind ((Message.CreateMethodReturn twoReceived
        (methodReturnArgs (Message.mk_ 1) (Message.mk_ 1))).1.live? 3) =
        some Kind.MethodReturn) ∧
    ((Message.CreateErrorMessage twoReceived
        (errorMessageArgs (Message.mk_ 1) (Message.mk_ 1) "org.example.Error" "failed")).2 =
        Except.ok (Message.mk_ 3) ∧
      Option.map DBusMessage.kind ((Message.CreateErrorMessage twoReceived
        (errorMessageArgs (Message.mk_ 1) (Message.mk_ 1) "org.example.Error"
          "failed")).1.live? 3) = some Kind.Error) ∧
    ((Message.CreateSignal emptyHeap
        (signalArgs (Message.mk_ 0) "/a/b" "com.x.Y" "Changed")).2 = Except.ok (Message.mk_ 1) ∧
      Option.map DBusMessage.kind ((Message.CreateSignal emptyHeap
        (signalArgs (Message.mk_ 0) "/a/b" "com.x.Y" "Changed")).1.live? 1) =
        some Kind.Signal) :=
  ⟨⟨by decide, (C8_typed_constructor_kind emptyHeap (methodCallArgs (Message.mk_ 0)
      "org.example.Dest" "/obj" "org.example.Iface" "Method") (Message.mk_ 1)).1 (by decide)⟩,
   ⟨by decide, (C8_typed_constructor_kind twoReceived
      (methodReturnArgs (Message.mk_ 1) (Message.mk_ 1)) (Message.mk_ 3)).2.1 (by decide)⟩,
   ⟨by decide, (C8_typed_constructor_kind twoReceived
      (errorMessageArgs (Message.mk_ 1) (Message.mk_ 1) "org.example.Error" "failed")
      (Message.mk_ 3)).2.2.1 (by decide)⟩,
   ⟨by decide, (C8_typed_constructor_kind emptyHeap
      (signalArgs (Message.mk_ 0) "/a/b" "com.x.Y" "Changed") (Message.mk_ 1)).2.2.2
      (by decide)⟩⟩

/-! ## Addressing fields -/

theorem Utf8Value.c_str_of_no_nul (s : String) (hs : NUL ∉ s.data) :
    Utf8Value.c_str s = s := by
  obtain ⟨l⟩ := s
  have hl : List.takeWhile (fun c => c != NUL) l = l := by
    rw [List.takeWhile_eq_self_iff]
    intro c hc
    simp only [bne_iff_ne, ne_eq]
    intro hcn
    exact hs (hcn ▸ hc)
  simp only [Utf8Value.c_str, hl]

/-- C5, as stated, fails: a destination with an embedded U+0000 reads back cut
at that character. -/
theorem C5_counterexample_embedded_nul :
    (Message.CreateMethodCall emptyHeap (methodCallArgs (Message.mk_ 0)
        "org.example.Dest\x00.x" "/obj" "org.example.Iface" "Method")).2 =
      Except.ok (Message.mk_ 1) ∧
    Option.map DBusMessage.destination
      ((Message.CreateMethodCall emptyHeap (methodCallArgs (Message.mk_ 0)
        "org.example.Dest\x00.x" "/obj" "org.example.Iface" "Method")).1.live? 1) =
      some (some "org.example.Dest") ∧
    "org.example.Dest" ≠ "org.example.Dest\x00.x" := by
  decide

/-- C5, amended: when the allocation succeeds, `createMethodCall(d, p, i, m)`
yields a payload whose destination, path, interface and member are `d`, `p`,
`i`, `m` in that order, and `createSignal(p, i, m)` one whose path, interface
and name are `p`, `i`, `m` in that order, each as the C string the transport
receives: the argument up to its first U+0000, which is the argument itself
whenever it contains no U+0000 (multi-byte content included). -/
theorem C5_addressing_fields_read_back (h : Heap) (holder : Message) (d p i m : String)
    (hs : h.nextAllocSucceeds = true) :
    ((Message.CreateMethodCall h (methodCallArgs holder d p i m)).2 =
        Except.ok (Message.mk_ (h.cells.length + 1)) ∧
      (Message.CreateMethodCall h (methodCallArgs holder d p i m)).1.live?
          (h.cells.length + 1) =
        some { DBusMessage.empty DBUS_MESSAGE_TYPE_METHOD_CALL with
          destination := some (Utf8Value.c_str d), path := some (Utf8Value.c_str p),
          interface := some (Utf8Value.c_str i), member := some (Utf8Value.c_str m) }) ∧
    ((Message.CreateSignal h (signalArgs holder p i m)).2 =
        Except.ok (Message.mk_ (h.cells.length + 1)) ∧
      (Message.CreateSignal h (signalArgs holder p i m)).1.live? (h.cells.length + 1) =
        some { DBusMessage.empty DBUS_MESSAGE_TYPE_SIGNAL with
          path := some (Utf8Value.c_str p), interface := some (Utf8Value.c_str i),
          member := some (Utf8Value.c_str m) }) ∧
    (∀ s : String, NUL ∉ s.data → Utf8Value.c_str s = s) := by
  refine ⟨?_, ?_, Utf8Value.c_str_of_no_nul⟩
  · have hq : (dbus_message_new_method_call h (Utf8Value.c_str d) (Utf8Value.c_str p)
        (Utf8Value.c_str i) (Utf8Value.c_str m)).2 = h.cells.length + 1 := by
      simp [dbus_message_new_method_call, Heap.alloc_of_succeeds _ hs]
    have hne : (dbus_message_new_method_call h (Utf8Value.c_str d) (Utf8Value.c_str p)
        (Utf8Value.c_str i) (Utf8Value.c_str m)).2 ≠ 0 := by rw [hq]; omega
    have hl := dbus_message_new_method_call_live h _ _ _ _ hne
    rw [hq] at hl
    constructor
    · rw [Message.CreateMethodCall_eq h _ d p i m rfl, (surface_or_wrap _).2.1 hne, hq]
    · rw [Message.CreateMethodCall_eq h _ d p i m rfl, (surface_or_wrap _).2.2]
      exact hl
  · have hq : (dbus_message_new_signal h (Utf8Value.c_str p) (Utf8Value.c_str i)
        (Utf8Value.c_str m)).2 = h.cells.length + 1 := by
      simp [dbus_message_new_signal, Heap.alloc_of_succeeds _ hs]
    have hne : (dbus_message_new_signal h (Utf8Value.c_str p) (Utf8Value.c_str i)
        (Utf8Value.c_str m)).2 ≠ 0 := by rw [hq]; omega
    have hl := dbus_message_new_signal_live h _ _ _ hne
    rw [hq] at hl
    constructor
    · rw [Message.CreateSignal_eq h _ p i m rfl, (surface_or_wrap _).2.1 hne, hq]
    · rw [Message.CreateSignal_eq h _ p i m rfl, (surface_or_wrap _).2.2]
      exact hl

/-- C5, amended, at a concrete call with multi-byte content. -/
theorem C5_addressing_fields_read_back_witness :
    emptyHeap.nextAllocSucceeds = true ∧
    (Message.CreateMethodCall emptyHeap (methodCallArgs (Message.mk_ 0)
        "org.example.Dest" "/obj/é" "org.example.Iface" "Method")).2 =
      Except.ok (Message.mk_ (emptyHeap.cells.length + 1)) ∧
    Utf8Value.c_str "/obj/é" = "/obj/é" :=
  ⟨by decide,
   (C5_addressing_fields_read_back emptyHeap (Message.mk_ 0)
      "org.example.Dest" "/obj/é" "org.example.Iface" "Method" (by decide)).1.1,
   (C5_addressing_fields_read_back emptyHeap (Message.mk_ 0)
      "org.example.Dest" "/obj/é" "org.example.Iface" "Method" (by decide)).2.2 "/obj/é"
      (by decide)⟩

/-! ## Argument counts -/

/-- C6, as stated, fails: `createSignal` called with one argument throws the
argument-count error, and called with three strings it succeeds. -/
theorem C6_counterexample_createSignal_count :
    (Message.CreateSignal emptyHeap
        { Holder := Message.mk_ 0, argv := [Value.string "/a/b"] }).2 =
      Except.error (Exception.argumentCountMismatch 1 3) ∧
    (Message.CreateSignal emptyHeap
        (signalArgs (Message.mk_ 0) "/a/b" "com.x.Y" "Changed")).2 =
      Except.ok (Message.mk_ 1) := by
  decide

theorem Message.New_count (h : Heap) (args : Arguments) :
    (args.Length ≠ 1 →
      Message.New h args = (h, Except.error (Exception.argumentCountMismatch args.Length 1))) ∧
    (args.Length = 1 →
      ∀ a k, (Message.New h args).2 ≠ Except.error (Exception.argumentCountMismatch a k)) := by
  constructor
  · intro hlen
    simp [Message.New, v8_utils.argumentCountMismatch, hlen,
      v8_utils.throwArgumentCountMismatchException]
  · intro hlen a k
    unfold Message.New
    simp only [v8_utils.argumentCountMismatch, hlen, bne_self_eq_false, Bool.false_eq_true,
      if_false]
    repeat' split
    all_goals simp [v8_utils.throwTypeError]

theorem Message.CreateMethodCall_count (h : Heap) (args : Arguments) :
    (args.Length ≠ 4 →
      Message.CreateMethodCall h args =
        (h, Except.error (Exception.argumentCountMismatch args.Length 4))) ∧
    (args.Length = 4 →
      ∀ a k, (Message.CreateMethodCall h args).2 ≠
        Except.error (Exception.argumentCountMismatch a k)) := by
  constructor
  · intro hlen
    simp [Message.CreateMethodCall, v8_utils.argumentCountMismatch, hlen,
      v8_utils.throwArgumentCountMismatchException]
  · intro hlen a k
    unfold Message.CreateMethodCall
    simp only [v8_utils.argumentCountMismatch, hlen, bne_self_eq_false, Bool.false_eq_true,
      if_false]
    repeat' split
    all_goals simp [v8_utils.throwTypeError, v8_utils.throwError, Message.NewInstance_eq]

theorem Message.CreateMethodReturn_count (h : Heap) (args : Arguments) :
    (args.Length ≠ 1 →
      Message.CreateMethodReturn h args =
        (h, Except.error (Exception.argumentCountMismatch args.Length 1))) ∧
    (args.Length = 1 →
      ∀ a k, (Message.CreateMethodReturn h args).2 ≠
        Except.error (Exception.argumentCountMismatch a k)) := by
  constructor
  · intro hlen
    simp [Message.CreateMethodReturn, v8_utils.argumentCountMismatch, hlen,
      v8_utils.throwArgumentCountMismatchException]
  · intro hlen a k
    unfold Message.CreateMethodReturn
    simp only [v8_utils.argumentCountMismatch, hlen, bne_self_eq_false, Bool.false_eq_true,
      if_false]
    repeat' split
    all_goals simp [v8_utils.throwTypeError, v8_utils.throwError, Message.NewInstance_eq]

theorem Message.CreateErrorMessage_count (h : Heap) (args : Arguments) :
    (args.Length ≠ 3 →
      Message.CreateErrorMessage h args =
        (h, Except.error (Exception.argumentCountMismatch args.Length 3))) ∧
    (args.Length = 3 →
      ∀ a k, (Message.CreateErrorMessage h args).2 ≠
        Except.error (Exception.argumentCountMismatch a k)) := by
  constructor
  · intro hlen
    simp [Message.CreateErrorMessage, v8_utils.argumentCountMismatch, hlen,
      v8_utils.throwArgumentCountMismatchException]
  · intro hlen a k
    unfold Message.CreateErrorMessage
    simp only [v8_utils.argumentCountMismatch, hlen, bne_self_eq_false, Bool.false_eq_true,
      if_false]
    repeat' split
    all_goals simp [v8_utils.throwTypeError, v8_utils.throwError, Message.NewInstance_eq]

theorem Message.CreateSignal_count (h : Heap) (args : Arguments) :
    (args.Length ≠ 3 →
      Message.CreateSignal h args =
        (h, Except.error (Exception.argumentCountMismatch args.Length 3))) ∧
    (args.Length = 3 →
      ∀ a k, (Message.CreateSignal h args).2 ≠
        Except.error (Exception.argumentCountMismatch a k)) := by
  constructor
  · intro hlen
    simp [Message.CreateSignal, v8_utils.argumentCountMismatch, hlen,
      v8_utils.throwArgumentCountMismatchException]
  · intro hlen a k
    unfold Message.CreateSignal
    simp only [v8_utils.argumentCountMismatch, hlen, bne_self_eq_false, Bool.false_eq_true,
      if_false]
    repeat' split
    all_goals simp [v8_utils.throwTypeError, v8_utils.throwError, Message.NewInstance_eq]

/-- C6, amended: each operation throws the argument-count error (an
`InvalidArgument`), leaving the heap untouched, whenever it is called with a
number of arguments other than its exact count, and never throws it at that
count; the exact counts are 1 for the generic/wrap constructor, 4 for
`createMethodCall`, 1 for `createMethodReturn`, 3 for `createErrorMessage` and
3 for `createSignal`. -/
theorem C6_argument_counts (h : Heap) (args : Arguments) :
    ((args.Length ≠ 1 →
        Message.New h args =
          (h, Except.error (Exception.argumentCountMismatch args.Length 1))) ∧
      (args.Length = 1 →
        ∀ a k, (Message.New h args).2 ≠ Except.error (Exception.argumentCountMismatch a k))) ∧
    ((args.Length ≠ 4 →
        Message.CreateMethodCall h args =
          (h, Except.error (Exception.argumentCountMismatch args.Length 4))) ∧
      (args.Length = 4 →
        ∀ a k, (Message.CreateMethodCall h args).2 ≠
          Except.error (Exception.argumentCountMismatch a k))) ∧
    ((args.Length ≠ 1 →
        Message.CreateMethodReturn h args =
          (h, Except.error (Exception.argumentCountMismatch args.Length 1))) ∧
      (args.Length = 1 →
        ∀ a k, (Message.CreateMethodReturn h args).2 ≠
          Except.error (Exception.argumentCountMismatch a k))) ∧
    ((args.Length ≠ 3 →
        Message.CreateErrorMessage h args =
          (h, Except.error (Exception.argumentCountMismatch args.Length 3))) ∧
      (args.Length = 3 →
        ∀ a k, (Message.CreateErrorMessage h args).2 ≠
          Except.error (Exception.argumentCountMismatch a k))) ∧
    ((args.Length ≠ 3 →
        Message.CreateSignal h args =
          (h, Except.error (Exception.argumentCountMismatch args.Length 3))) ∧
      (args.Length = 3 →
        ∀ a k, (Message.CreateSignal h args).2 ≠
          Except.error (Exception.argumentCountMismatch a k))) ∧
    (∀ a k, (Exception.argumentCountMismatch a k).isInvalidArgument = true) :=
  ⟨Message.New_count h args, Message.CreateMethodCall_count h args,
   Message.CreateMethodReturn_count h args, Message.CreateErrorMessage_count h args,
   Message.CreateSignal_count h args, fun _ _ => rfl⟩

/-- C6, amended, at concrete calls: `createSignal` with two arguments and
with three. -/
theorem C6_argument_counts_witness :
    Message.CreateSignal emptyHeap
        { Holder := Message.mk_ 0, argv := [Value.string "/a/b", Value.string "com.x.Y"] } =
      (emptyHeap, Except.error (Exception.argumentCountMismatch 2 3)) ∧
    (∀ a k, (Message.CreateSignal emptyHeap
        (signalArgs (Message.mk_ 0) "/a/b" "com.x.Y" "Changed")).2 ≠
      Except.error (Exception.argumentCountMismatch a k)) :=
  ⟨(C6_argument_counts emptyHeap
      { Holder := Message.mk_ 0,
        argv := [Value.string "/a/b", Value.string "com.x.Y"] }).2.2.2.2.1.1 (by decide),
   (C6_argument_counts emptyHeap
      (signalArgs (Message.mk_ 0) "/a/b" "com.x.Y" "Changed")).2.2.2.2.1.2 (by decide)⟩

/-! ## The generic constructor -/

/-- C3, as stated, fails: called with the tag 0 (`Invalid`) or the tag 99,
neither of them a recognised kind, the generic constructor throws nothing and
returns a `Message`. -/
theorem C3_counterexample_unrecognised_tag :
    kindOfType 0 = Kind.Invalid ∧
    (Message.New emptyHeap { Holder := Message.mk_ 0, argv := [Value.number 0] }).2 =
      Except.ok (Message.mk_ 1) ∧
    kindOfType 99 = Kind.Invalid ∧
    (Message.New emptyHeap { Holder := Message.mk_ 0, argv := [Value.number 99] }).2 =
      Except.ok (Message.mk_ 1) := by
  decide

/-- C3, amended: the generic constructor makes no kind check. Called with one
Int32 tag it never throws: it returns a `Message` wrapping what
`dbus_message_new(tag)` returned; when that allocation succeeds the payload is
an empty one of the kind the tag stands for, one of the four kinds for the
tags 1 to 4, and its serial and reply serial read 0. It throws the type error
(an `InvalidArgument`) for a single argument that is neither an external
payload nor an Int32; an external payload is wrapped as it is. -/
theorem C3_generic_constructor_no_kind_check (h : Heap) (args : Arguments) (t : Int)
    (ha : args.argv = [Value.number t]) (hlo : -2147483648 ≤ t) (hhi : t ≤ 2147483647) :
    Message.New h args =
      ((dbus_message_new h t).1, Except.ok (Message.mk_ (dbus_message_new h t).2)) ∧
    (h.nextAllocSucceeds = true →
      (dbus_message_new h t).2 = h.cells.length + 1 ∧
      (Message.New h args).1.live? (h.cells.length + 1) = some (DBusMessage.empty t) ∧
      (DBusMessage.empty t).kind = kindOfType t ∧
      Message.GetSerial (Message.New h args).1 (Message.mk_ (h.cells.length + 1)) =
        Value.number 0 ∧
      Message.GetReplySerial (Message.New h args).1 (Message.mk_ (h.cells.length + 1)) =
        Value.number 0) ∧
    (kindOfType 1 = Kind.MethodCall ∧ kindOfType 2 = Kind.MethodReturn ∧
      kindOfType 3 = Kind.Error ∧ kindOfType 4 = Kind.Signal) ∧
    (∀ (v : Value) (args1 : Arguments), args1.argv = [v] →
      v.IsExternal = false → v.IsInt32 = false →
      Message.New h args1 =
        (h, Except.error
          (Exception.typeError "argument 1 must be an integer (DBusMessageType)"))) ∧
    (Exception.typeError "argument 1 must be an integer (DBusMessageType)").isInvalidArgument =
      true ∧
    (∀ (p : Nat) (args1 : Arguments), args1.argv = [Value.external p] →
      Message.New h args1 = (h, Except.ok (Message.mk_ p))) := by
  have ht : (Value.number t).IsInt32 = true := by simp [Value.IsInt32, hlo, hhi]
  have hnew := Message.New_int32 h args t ha ht
  refine ⟨hnew, ?_, by decide, ?_, rfl, ?_⟩
  rotate_left 2
  · intro p args1 ha1
    simp [Message.New, v8_utils.argumentCountMismatch, Arguments.Length, Arguments.get, ha1]
  · intro hs
    have hq : (dbus_message_new h t).2 = h.cells.length + 1 := by
      simp [dbus_message_new, Heap.alloc_of_succeeds _ hs]
    have hne : (h.alloc (DBusMessage.empty t)).2 ≠ 0 := by
      rw [Heap.alloc_of_succeeds _ hs]; simp
    have hl : (dbus_message_new h t).1.live? (h.cells.length + 1) =
        some (DBusMessage.empty t) := by
      have := @Heap.alloc_live h (DBusMessage.empty t) hne (by simp [DBusMessage.empty])
      rw [← hq]
      exact this
    rw [hnew]
    refine ⟨hq, hl, rfl, ?_, ?_⟩
    · simp only [Message.GetSerial, Message.mk_, dbus_message_get_serial, hl]
      rfl
    · simp only [Message.GetReplySerial, Message.mk_, dbus_message_get_reply_serial, hl]
      rfl
  · intro v args1 ha1 hx hi
    exact Message.New_not_int32 h args1 v ha1 hx hi

/-- C3, amended, at a concrete call: the tag 4 on the empty heap. -/
theorem C3_generic_constructor_no_kind_check_witness :
    (Message.New emptyHeap { Holder := Message.mk_ 0, argv := [Value.number 4] }).1.live?
        (emptyHeap.cells.length + 1) = some (DBusMessage.empty 4) ∧
    kindOfType 4 = Kind.Signal :=
  ⟨((C3_generic_constructor_no_kind_check emptyHeap
      { Holder := Message.mk_ 0, argv := [Value.number 4] } 4 rfl (by decide)
      (by decide)).2.1 (by decide)).2.1,
   (C3_generic_constructor_no_kind_check emptyHeap
      { Holder := Message.mk_ 0, argv := [Value.number 4] } 4 rfl (by decide)
      (by decide)).2.2.1.2.2.2⟩

/-! ## Replies: which message is answered -/

/-- With well-typed arguments, the reply serial of the method return is the
serial of the receiver of the call, whatever message is passed as argument. -/
theorem Message.CreateMethodReturn_replySerial (h : Heap) (holder src : Message)
    (c : DBusMessage) (hl : h.live? holder.message_ = some c)
    (hs : h.nextAllocSucceeds = true) :
    (Message.CreateMethodReturn h (methodReturnArgs holder src)).2 =
      Except.ok (Message.mk_ (h.cells.length + 1)) ∧
    Message.GetReplySerial (Message.CreateMethodReturn h (methodReturnArgs holder src)).1
      (Message.mk_ (h.cells.length + 1)) = Value.number c.serial := by
  have hq : (dbus_message_new_method_return h holder.message_).2 = h.cells.length + 1 := by
    rw [dbus_message_new_method_return_of_live hl, Heap.alloc_of_succeeds _ hs]
  have hne : (dbus_message_new_method_return h holder.message_).2 ≠ 0 := by rw [hq]; omega
  obtain ⟨c1, hc1, hlive⟩ := dbus_message_new_method_return_live h holder.message_ hne
  rw [hl] at hc1
  cases hc1
  rw [hq] at hlive
  rw [Message.CreateMethodReturn_eq h _ src rfl]
  simp only [methodReturnArgs]
  constructor
  · rw [(surface_or_wrap _).2.1 hne, hq]
  · rw [(surface_or_wrap _).2.2]
    simp only [Message.GetReplySerial, Message.mk_, dbus_message_get_reply_serial, hlive]

/-- The same on `createErrorMessage`: invoked on the call with serial 5 with
the call with serial 7 as its first argument, the error answers serial 5. -/
theorem Message.CreateErrorMessage_answers_receiver :
    (Message.CreateErrorMessage twoReceived
        (errorMessageArgs (Message.mk_ 1) (Message.mk_ 2) "org.example.Error" "failed")).2 =
      Except.ok (Message.mk_ 3) ∧
    Message.GetReplySerial
        (Message.CreateErrorMessage twoReceived
          (errorMessageArgs (Message.mk_ 1) (Message.mk_ 2) "org.example.Error" "failed")).1
        (Message.mk_ 3) = Value.number 5 ∧
    Message.GetSerial twoReceived (Message.mk_ 2) = Value.number 7 := by
  decide

/-- C1, at a failing input: on the heap holding a call with serial 5 (address
1) and a call with serial 7 (address 2), `createMethodReturn` invoked on the
first message with the second as its argument returns a `Message` whose reply
serial is 5, the serial of the receiver, not 7, the serial of the argument. -/
theorem C1_createMethodReturn_answers_receiver :
    Message.GetSerial twoReceived (Message.mk_ 1) = Value.number 5 ∧
    Message.GetSerial twoReceived (Message.mk_ 2) = Value.number 7 ∧
    (Message.CreateMethodReturn twoReceived
        (methodReturnArgs (Message.mk_ 1) (Message.mk_ 2))).2 = Except.ok (Message.mk_ 3) ∧
    Message.GetReplySerial
        (Message.CreateMethodReturn twoReceived
          (methodReturnArgs (Message.mk_ 1) (Message.mk_ 2))).1 (Message.mk_ 3) =
      Value.number 5 ∧
    Message.GetReplySerial
        (Message.CreateMethodReturn twoReceived
          (methodReturnArgs (Message.mk_ 1) (Message.mk_ 2))).1 (Message.mk_ 3) ≠
      Message.GetSerial twoReceived (Message.mk_ 2) := by
  decide

/-- C2, as stated, fails: an error name with an embedded U+0000 reads back cut
at that character (receiver and argument are the same message here). -/
theorem C2_counterexample_embedded_nul :
    (Message.CreateErrorMessage twoReceived (errorMessageArgs (Message.mk_ 1) (Message.mk_ 1)
        "org.example.Error\x00.x" "failed")).2 = Except.ok (Message.mk_ 3) ∧
    Option.map DBusMessage.error_name
      ((Message.CreateErrorMessage twoReceived (errorMessageArgs (Message.mk_ 1)
        (Message.mk_ 1) "org.example.Error\x00.x" "failed")).1.live? 3) =
      some (some "org.example.Error") ∧
    "org.example.Error" ≠ "org.example.Error\x00.x" := by
  decide

/-- C2, amended: called with a `Message` and two strings, whenever the
transport returns a payload, `createErrorMessage` returns a `Message` wrapping
it, of kind `Error`, whose error name and error message are the two strings
as the C strings the transport receives: each up to its first U+0000, which
is the string itself whenever it contains no U+0000 (the empty string
included). -/
theorem C2_error_message_fields (h : Heap) (holder src : Message) (n e : String)
    (hne : (dbus_message_new_error h holder.message_ (Utf8Value.c_str n)
      (Utf8Value.c_str e)).2 ≠ 0) :
    (Message.CreateErrorMessage h (errorMessageArgs holder src n e)).2 =
      Except.ok (Message.mk_ (dbus_message_new_error h holder.message_ (Utf8Value.c_str n)
        (Utf8Value.c_str e)).2) ∧
    Option.map DBusMessage.kind
      ((Message.CreateErrorMessage h (errorMessageArgs holder src n e)).1.live?
        (dbus_message_new_error h holder.message_ (Utf8Value.c_str n)
          (Utf8Value.c_str e)).2) = some Kind.Error ∧
    Option.map DBusMessage.error_name
      ((Message.CreateErrorMessage h (errorMessageArgs holder src n e)).1.live?
        (dbus_message_new_error h holder.message_ (Utf8Value.c_str n)
          (Utf8Value.c_str e)).2) = some (some (Utf8Value.c_str n)) ∧
    Option.map DBusMessage.error_message
      ((Message.CreateErrorMessage h (errorMessageArgs holder src n e)).1.live?
        (dbus_message_new_error h holder.message_ (Utf8Value.c_str n)
          (Utf8Value.c_str e)).2) = some (some (Utf8Value.c_str e)) ∧
    (∀ s : String, NUL ∉ s.data → Utf8Value.c_str s = s) ∧
    Utf8Value.c_str "" = "" := by
  obtain ⟨c, -, hc⟩ := dbus_message_new_error_live h holder.message_ _ _ hne
  rw [Message.CreateErrorMessage_eq h _ src n e rfl]
  simp only [errorMessageArgs]
  refine ⟨(surface_or_wrap _).2.1 hne, ?_, ?_, ?_, Utf8Value.c_str_of_no_nul, by decide⟩
  all_goals
    rw [(surface_or_wrap _).2.2, hc]
    rfl

/-- C2, amended, at a concrete call: the error of the spec's example with an
empty message. -/
theorem C2_error_message_fields_witness :
    (dbus_message_new_error twoReceived (Message.mk_ 1).message_
      (Utf8Value.c_str "org.example.Error") (Utf8Value.c_str "")).2 ≠ 0 ∧
    (Message.CreateErrorMessage twoReceived (errorMessageArgs (Message.mk_ 1) (Message.mk_ 1)
        "org.example.Error" "")).2 =
      Except.ok (Message.mk_ (dbus_message_new_error twoReceived (Message.mk_ 1).message_
        (Utf8Value.c_str "org.example.Error") (Utf8Value.c_str "")).2) :=
  ⟨by decide,
   (C2_error_message_fields twoReceived (Message.mk_ 1) (Message.mk_ 1)
      "org.example.Error" "" (by decide)).1⟩

end node_dbus
